/-
Verification of the Pacific Properties Revenue Engine (TypeScript sources)
through a shallow embedding over ℚ.  Numeric values of the source are
modelled as rationals, with the source's decimal literals written as the
equal fractions (0.80 = 4/5, 0.30 = 3/10, ...); JS `Math.max`/`Math.min`
become `max`/`min`; nullable results become `Option`.  Textual presentation
fields of the source records (`explanation`, `rationale`, `value`, `goal`)
are elided: they carry formatted display text only, and no verified property
mentions them.  All discriminant and numeric fields are modelled.
-/
import Mathlib

namespace RevenueSpec

/-! ## Configuration (src/revenue-engine/config.ts) -/

def APS_MIN : ℚ := 4/5

def APS_MAX : ℚ := 8/5

def PID_HISTORY : ℚ := 7/10

def PID_INDEX : ℚ := 3/10

def VELOCITY_GAP_THRESHOLD : ℚ := 3/20

def PEAK_ADR_MULTIPLIER : ℚ := 5/4

namespace MONTHLY

def MIN_REVPAR_THRESHOLD : ℚ := 1

def MIN_OCCUPANCY_THRESHOLD : ℚ := 1/100

def MIN_ADR_THRESHOLD : ℚ := 1

def UNDERPRICING_OCC_MULTIPLIER : ℚ := 3/2

def UNDERPRICING_REVPAR_MULTIPLIER : ℚ := 4/5

def OVERPRICING_OCC_MULTIPLIER : ℚ := 7/10

def OVERPRICING_REVPAR_MULTIPLIER : ℚ := 4/5

def OVERPRICING_CORRECTION_FACTOR : ℚ := 9/10

def CORRECTION_SMOOTHING_DIVISOR : ℚ := 2

def MAX_UPWARD_CORRECTION : ℚ := 3/2

def MAX_DOWNWARD_CORRECTION : ℚ := 4/5

end MONTHLY

namespace WEEKLY

/-- Loop bound of the weekly audit; a natural number, as it counts days. -/
def AUDIT_LOOKAHEAD_DAYS : ℕ := 14

def FORWARD_BOOKING_WINDOW : ℚ := 90

def DECAY_WINDOW_PERCENTAGE : ℚ := 3/10

def MIN_DECAY_MULTIPLIER : ℚ := 7/10

def APS_JUSTIFIED_PRICE_THRESHOLD : ℚ := 1/10

def EARLY_DEMAND_OCC_MULTIPLIER : ℚ := 5/2

def EARLY_DEMAND_RATE_INCREASE_MIN : ℚ := 1/5

def EARLY_DEMAND_RATE_INCREASE_MAX : ℚ := 1/4

def FRONT_HALF_LAGGING_THRESHOLD : ℚ := 1/5

def LAGGING_OCCUPANCY_THRESHOLD : ℚ := 3/20

end WEEKLY

namespace MARKET_STATE

def HOT_OCCUPANCY_THRESHOLD : ℚ := 3/4

def COLD_OCCUPANCY_THRESHOLD : ℚ := 9/20

def HOT_PACE_THRESHOLD : ℚ := 11/10

def COLD_PACE_THRESHOLD : ℚ := 9/10

end MARKET_STATE

/-! ## Data model (src/revenue-engine/types.ts) -/

inductive MarketState
  | HOT
  | COLD
  | NEUTRAL
  deriving DecidableEq, Repr

inductive BookingPhase
  | BACK_HALF
  | FRONT_HALF
  deriving DecidableEq, Repr

inductive RecommendationType
  | RATE_INCREASE
  | PRICE_DROP
  | APPLY_PROMOTION
  | LAST_MINUTE_DEAL
  | EXTENDED_STAY_INCENTIVE
  | NO_ACTION
  deriving DecidableEq, Repr

inductive DiagnosisType
  | CLASSIC_UNDERPRICING
  | CLASSIC_OVERPRICING
  | ACCEPTABLE_PERFORMANCE
  deriving DecidableEq, Repr

/-- The source type of `Recommendation.phase` is `BookingPhase | 'N/A'`. -/
inductive RecPhase
  | BACK_HALF
  | FRONT_HALF
  | NA
  deriving DecidableEq, Repr

inductive AdjustmentType
  | INCREASE
  | DECREASE
  | NO_CHANGE
  deriving DecidableEq, Repr

structure PerformanceMultipliers where
  occupancy : ℚ
  revPAR : ℚ
  adr : ℚ
  deriving DecidableEq, Repr

structure Diagnosis where
  type : DiagnosisType
  priceErrorFactor : ℚ
  correctionFactor : ℚ
  deriving DecidableEq, Repr

structure CorrectionResult where
  previousTargetRent : ℚ
  newTargetRent : ℚ
  appliedMultiplier : ℚ
  adjustmentType : AdjustmentType
  adjustmentAmount : ℚ
  adjustmentPercentage : ℚ
  deriving DecidableEq, Repr

structure OperatingMode where
  name : String
  baseDiscount : ℚ
  maxDiscount : ℚ
  occupancyThreshold : ℚ
  deriving DecidableEq, Repr

structure BookingPhaseResult where
  phase : BookingPhase
  daysToArrival : ℚ
  transitionPoint : ℚ
  deriving DecidableEq, Repr

structure APSDecayResult where
  effectiveAPS : ℚ
  decayApplied : Bool
  decayMultiplier : ℚ
  daysToArrival : ℚ
  deriving DecidableEq, Repr

structure MarketAlignmentResult where
  isOverpriced : Bool
  ourPrice : ℚ
  fairMarketPrice : ℚ
  effectiveAPS : ℚ
  apsAdjustedPrice : ℚ
  maxJustifiablePrice : ℚ
  priceGapPercentage : ℚ
  decayApplied : Bool
  deriving DecidableEq, Repr

structure SlidingScaleResult where
  baseDiscount : ℚ
  multiplier : ℚ
  calculatedDiscount : ℚ
  finalDiscount : ℚ
  bracketLabel : String
  cappedByMax : Bool
  deriving DecidableEq, Repr

structure Recommendation where
  date : String
  type : RecommendationType
  currentPrice : ℚ
  suggestedPrice : ℚ
  phase : RecPhase
  marketState : MarketState
  operatingMode : String
  deriving DecidableEq, Repr

structure BellCurveStats where
  backHalfDays : ℕ
  frontHalfDays : ℕ
  transitionPoint : ℚ
  deriving DecidableEq, Repr

structure ReviewCounts where
  rateIncreases : ℕ
  priceDrops : ℕ
  promotions : ℕ
  total : ℕ
  deriving DecidableEq, Repr

structure WeeklyReviewResult where
  marketState : MarketState
  operatingMode : String
  bellCurve : BellCurveStats
  recommendations : List Recommendation
  counts : ReviewCounts
  deriving DecidableEq, Repr

/-- In config.ts `maxDays: Infinity` marks the open-ended last bracket;
`none` encodes that infinity here. -/
structure DiscountBracket where
  minDays : ℚ
  maxDays : Option ℚ
  multiplier : ℚ
  label : String
  deriving DecidableEq, Repr

namespace OPERATING_MODES

def AGGRESSIVE : OperatingMode :=
  { name := "Aggressive", baseDiscount := 1/20, maxDiscount := 3/20, occupancyThreshold := 1/10 }

def STANDARD : OperatingMode :=
  { name := "Standard", baseDiscount := 1/10, maxDiscount := 1/5, occupancyThreshold := 3/20 }

def DEFENSIVE : OperatingMode :=
  { name := "Defensive", baseDiscount := 3/20, maxDiscount := 3/10, occupancyThreshold := 3/20 }

end OPERATING_MODES

def SLIDING_SCALE_BRACKETS : List DiscountBracket :=
  [ { minDays := 0,  maxDays := some 3,  multiplier := 2,    label := "0-3d (2x)" },
    { minDays := 4,  maxDays := some 7,  multiplier := 3/2,  label := "4-7d (1.5x)" },
    { minDays := 8,  maxDays := some 14, multiplier := 5/4,  label := "8-14d (1.25x)" },
    { minDays := 15, maxDays := some 30, multiplier := 1,    label := "15-30d (1x)" },
    { minDays := 31, maxDays := none,    multiplier := 3/4,  label := "31+d (0.75x)" } ]

namespace LAST_MINUTE

def MAX_DAYS_OUT : ℚ := 7

def OCC_THRESHOLD : ℚ := 1/2

def DISCOUNT_PERCENTAGE : ℚ := 1/5

end LAST_MINUTE

namespace EXTENDED_STAY

def PROPERTY_MAX_AVG_STAY : ℚ := 3

def MARKET_MIN_AVG_STAY : ℚ := 4

def DISCOUNT_LABEL : String := "10% for 5+ nights"

def DISCOUNT_PERCENTAGE : ℚ := 1/10

end EXTENDED_STAY

/-! ## Core formulas (src/revenue-engine/formulas.ts) -/

namespace RevenueEngine

def calculatePerformanceIndex (myRevPAR marketRevPAR : ℚ) : ℚ :=
  if marketRevPAR ≤ 0 then 1 else myRevPAR / marketRevPAR

def calculateNewAPS (previousAPS index : ℚ) : ℚ :=
  let newAPS := previousAPS * PID_HISTORY + index * PID_INDEX
  max APS_MIN (min newAPS APS_MAX)

def calculateAnnualTarget (marketAnnualRevPAR aps : ℚ) : ℚ :=
  marketAnnualRevPAR * aps

def calculateMinPrice (market20thPctl lastYearLowest : ℚ) : ℚ :=
  max market20thPctl lastYearLowest

def calculateMaxPrice (peakFutureADR aps : ℚ) : ℚ :=
  peakFutureADR * aps * PEAK_ADR_MULTIPLIER

def calculateDynamicCentroid (avgFutureMarketADR aps : ℚ) : ℚ :=
  avgFutureMarketADR * aps

def calculateBasePrice (avgADR aps : ℚ) : ℚ :=
  avgADR * aps

end RevenueEngine

/-- The spec's `clamp(value, lo, hi)`: the value bounded into `[lo, hi]`.
Stated from the spec's words, to compare with `calculateNewAPS`. -/
def clamp (x lo hi : ℚ) : ℚ :=
  max lo (min x hi)

/-! ## Error forecasting (src/revenue-engine/error-forecasting.ts) -/

/-- In the source, `occupancy <= 0` returns `revPAR || 0`, which equals
`revPAR` numerically (`0 || 0` is `0`). -/
def deriveADR (revPAR occupancy : ℚ) : ℚ :=
  if occupancy ≤ 0 then revPAR else revPAR / occupancy

def calculatePerformanceMultipliers (ourOcc ourRevPAR ourADR compOcc compRevPAR compADR : ℚ) :
    PerformanceMultipliers :=
  let safeCompOcc := max compOcc MONTHLY.MIN_OCCUPANCY_THRESHOLD
  let safeCompRevPAR := max compRevPAR MONTHLY.MIN_REVPAR_THRESHOLD
  let safeCompADR := max compADR MONTHLY.MIN_ADR_THRESHOLD
  { occupancy := ourOcc / safeCompOcc,
    revPAR := ourRevPAR / safeCompRevPAR,
    adr := ourADR / safeCompADR }

def diagnoseErrorForecasting (m : PerformanceMultipliers) : Diagnosis :=
  if MONTHLY.UNDERPRICING_OCC_MULTIPLIER ≤ m.occupancy ∧
      m.revPAR ≤ MONTHLY.UNDERPRICING_REVPAR_MULTIPLIER then
    let priceErrorFactor := m.adr
    let correctionFactor := if 0 < priceErrorFactor then 1 / priceErrorFactor else 2
    { type := DiagnosisType.CLASSIC_UNDERPRICING,
      priceErrorFactor := priceErrorFactor,
      correctionFactor := correctionFactor }
  else if m.occupancy ≤ MONTHLY.OVERPRICING_OCC_MULTIPLIER ∧
      m.revPAR ≤ MONTHLY.OVERPRICING_REVPAR_MULTIPLIER then
    { type := DiagnosisType.CLASSIC_OVERPRICING,
      priceErrorFactor := m.adr,
      correctionFactor := MONTHLY.OVERPRICING_CORRECTION_FACTOR }
  else
    { type := DiagnosisType.ACCEPTABLE_PERFORMANCE,
      priceErrorFactor := 1,
      correctionFactor := 1 }

def calculateCorrectionAdjustment (currentTargetRent : ℚ) (diagnosis : Diagnosis) :
    CorrectionResult :=
  let appliedMultiplier :=
    if diagnosis.type = DiagnosisType.CLASSIC_UNDERPRICING then
      min (1 + (diagnosis.correctionFactor - 1) / MONTHLY.CORRECTION_SMOOTHING_DIVISOR)
        MONTHLY.MAX_UPWARD_CORRECTION
    else if diagnosis.type = DiagnosisType.CLASSIC_OVERPRICING then
      max diagnosis.correctionFactor MONTHLY.MAX_DOWNWARD_CORRECTION
    else 1
  let adjustmentType :=
    if diagnosis.type = DiagnosisType.CLASSIC_UNDERPRICING then AdjustmentType.INCREASE
    else if diagnosis.type = DiagnosisType.CLASSIC_OVERPRICING then AdjustmentType.DECREASE
    else AdjustmentType.NO_CHANGE
  let newTargetRent := currentTargetRent * appliedMultiplier
  { previousTargetRent := currentTargetRent,
    newTargetRent := newTargetRent,
    appliedMultiplier := appliedMultiplier,
    adjustmentType := adjustmentType,
    adjustmentAmount := newTargetRent - currentTargetRent,
    adjustmentPercentage := appliedMultiplier - 1 }

def runMonthlyErrorForecasting (ourOcc ourRevPAR compOcc compRevPAR currentTargetRent
    currentAPS marketAnnualRevPAR : ℚ) :
    PerformanceMultipliers × Diagnosis × CorrectionResult :=
  let ourADR := deriveADR ourRevPAR ourOcc
  let compADR := deriveADR compRevPAR compOcc
  let metrics := calculatePerformanceMultipliers ourOcc ourRevPAR ourADR compOcc compRevPAR compADR
  let diagnosis := diagnoseErrorForecasting metrics
  let effectiveTarget :=
    if 0 < currentTargetRent then currentTargetRent else marketAnnualRevPAR * currentAPS
  let correction := calculateCorrectionAdjustment effectiveTarget diagnosis
  (metrics, diagnosis, correction)

/-! ## Bell curve decision tree (bell-curve.ts, src/unnamed/part_006) -/

def determineBookingPhase (daysToArrival : ℚ) : BookingPhaseResult :=
  let transitionPoint := WEEKLY.FORWARD_BOOKING_WINDOW * WEEKLY.DECAY_WINDOW_PERCENTAGE
  let phase := if transitionPoint < daysToArrival then BookingPhase.BACK_HALF
               else BookingPhase.FRONT_HALF
  { phase := phase, daysToArrival := daysToArrival, transitionPoint := transitionPoint }

def determineMarketState (forwardOccupancy historicalOccupancyPace : ℚ) : MarketState :=
  let paceRatio := if 0 < historicalOccupancyPace
                   then forwardOccupancy / historicalOccupancyPace else 1
  if MARKET_STATE.HOT_OCCUPANCY_THRESHOLD ≤ forwardOccupancy ∨
      MARKET_STATE.HOT_PACE_THRESHOLD ≤ paceRatio then
    MarketState.HOT
  else if forwardOccupancy ≤ MARKET_STATE.COLD_OCCUPANCY_THRESHOLD ∨
      paceRatio ≤ MARKET_STATE.COLD_PACE_THRESHOLD then
    MarketState.COLD
  else
    MarketState.NEUTRAL

def getOperatingMode (state : MarketState) : OperatingMode :=
  match state with
  | MarketState.HOT => OPERATING_MODES.AGGRESSIVE
  | MarketState.COLD => OPERATING_MODES.DEFENSIVE
  | MarketState.NEUTRAL => OPERATING_MODES.STANDARD

def calculateAPSDecay (fullAPS daysToArrival : ℚ) : APSDecayResult :=
  let decayWindow := WEEKLY.FORWARD_BOOKING_WINDOW * WEEKLY.DECAY_WINDOW_PERCENTAGE
  if decayWindow ≤ daysToArrival then
    { effectiveAPS := fullAPS, decayApplied := false, decayMultiplier := 1,
      daysToArrival := daysToArrival }
  else
    let decayProgress := (decayWindow - daysToArrival) / decayWindow
    let decayMultiplier := 1 - decayProgress * (1 - WEEKLY.MIN_DECAY_MULTIPLIER)
    { effectiveAPS := fullAPS * decayMultiplier, decayApplied := true,
      decayMultiplier := decayMultiplier, daysToArrival := daysToArrival }

def checkMarketAlignment (ourPrice fairMarketPrice fullAPS daysToArrival : ℚ) :
    MarketAlignmentResult :=
  let decay := calculateAPSDecay fullAPS daysToArrival
  let apsAdjustedPrice := fairMarketPrice * decay.effectiveAPS
  let maxJustifiablePrice := apsAdjustedPrice * (1 + WEEKLY.APS_JUSTIFIED_PRICE_THRESHOLD)
  let isOverpriced := decide (maxJustifiablePrice < ourPrice)
  { isOverpriced := isOverpriced, ourPrice := ourPrice, fairMarketPrice := fairMarketPrice,
    effectiveAPS := decay.effectiveAPS, apsAdjustedPrice := apsAdjustedPrice,
    maxJustifiablePrice := maxJustifiablePrice,
    priceGapPercentage :=
      if 0 < apsAdjustedPrice then (ourPrice - apsAdjustedPrice) / apsAdjustedPrice else 0,
    decayApplied := decay.decayApplied }

/-- The source scans `SLIDING_SCALE_BRACKETS` with
`daysToArrival >= b.minDays && daysToArrival <= b.maxDays`
(`maxDays = Infinity`, encoded `none`, accepts every finite value). -/
def bracketMatches (daysToArrival : ℚ) (b : DiscountBracket) : Bool :=
  decide (b.minDays ≤ daysToArrival) &&
    (match b.maxDays with
     | some mx => decide (daysToArrival ≤ mx)
     | none => true)

/-- The bracket-selection loop of `calculateSlidingScaleDiscount`: the loop
variable starts at the last bracket and stops at the first match, which is
`find?` with the last bracket as the default. -/
def selectBracket (daysToArrival : ℚ) : DiscountBracket :=
  (SLIDING_SCALE_BRACKETS.find? (bracketMatches daysToArrival)).getD
    (SLIDING_SCALE_BRACKETS.getLastD { minDays := 0, maxDays := none, multiplier := 0, label := "" })

def calculateSlidingScaleDiscount (baseDiscount maxDiscount daysToArrival : ℚ) :
    SlidingScaleResult :=
  let bracket := selectBracket daysToArrival
  let calculated := baseDiscount * bracket.multiplier
  let final := min calculated maxDiscount
  { baseDiscount := baseDiscount, multiplier := bracket.multiplier,
    calculatedDiscount := calculated, finalDiscount := final,
    bracketLabel := bracket.label, cappedByMax := decide (maxDiscount < calculated) }

def checkEarlyDemand (ourOcc marketOcc : ℚ) : Bool × ℚ :=
  let multiplier := ourOcc / max marketOcc (1/100)
  (decide (WEEKLY.EARLY_DEMAND_OCC_MULTIPLIER < multiplier), multiplier)

def checkFrontHalfLagging (ourOcc marketOcc : ℚ) : Bool × ℚ :=
  let target := marketOcc * (1 - WEEKLY.FRONT_HALF_LAGGING_THRESHOLD)
  (decide (ourOcc < target), target)

structure DayData where
  ourOcc : ℚ
  ourPrice : ℚ
  marketOcc : ℚ
  fairMarketPrice : ℚ
  deriving DecidableEq, Repr

def auditDay (dateStr : String) (day : DayData) (daysToArrival fullAPS : ℚ)
    (mode : OperatingMode) (marketState : MarketState) : Option Recommendation :=
  let phaseResult := determineBookingPhase daysToArrival
  if phaseResult.phase = BookingPhase.BACK_HALF then
    let demand := checkEarlyDemand day.ourOcc day.marketOcc
    if demand.1 then
      let strength := min ((demand.2 - 5/2) / (5/2)) 1
      let pct := WEEKLY.EARLY_DEMAND_RATE_INCREASE_MIN +
        strength * (WEEKLY.EARLY_DEMAND_RATE_INCREASE_MAX - WEEKLY.EARLY_DEMAND_RATE_INCREASE_MIN)
      some { date := dateStr, type := RecommendationType.RATE_INCREASE,
             currentPrice := day.ourPrice, suggestedPrice := day.ourPrice * (1 + pct),
             phase := RecPhase.BACK_HALF, marketState := marketState,
             operatingMode := mode.name }
    else
      none
  else
    let lag := checkFrontHalfLagging day.ourOcc day.marketOcc
    if lag.1 then
      let alignment := checkMarketAlignment day.ourPrice day.fairMarketPrice fullAPS daysToArrival
      if alignment.isOverpriced then
        some { date := dateStr, type := RecommendationType.PRICE_DROP,
               currentPrice := day.ourPrice, suggestedPrice := alignment.apsAdjustedPrice,
               phase := RecPhase.FRONT_HALF, marketState := marketState,
               operatingMode := mode.name }
      else
        let discount := calculateSlidingScaleDiscount mode.baseDiscount mode.maxDiscount daysToArrival
        some { date := dateStr, type := RecommendationType.APPLY_PROMOTION,
               currentPrice := day.ourPrice,
               suggestedPrice := day.ourPrice * (1 - discount.finalDiscount),
               phase := RecPhase.FRONT_HALF, marketState := marketState,
               operatingMode := mode.name }
    else
      none

/-- `dateOf i` models the ISO date string of today plus `i` days; the date
arithmetic of the source is not under verification. -/
def runWeeklyBellCurveReview (dateOf : ℕ → String)
    (propertyOcc currentPrice fullAPS marketForwardOcc marketHistoricalOcc marketAvgADR : ℚ) :
    WeeklyReviewResult :=
  let marketState := determineMarketState marketForwardOcc marketHistoricalOcc
  let mode := getOperatingMode marketState
  let transitionPoint := WEEKLY.FORWARD_BOOKING_WINDOW * WEEKLY.DECAY_WINDOW_PERCENTAGE
  let days := List.range WEEKLY.AUDIT_LOOKAHEAD_DAYS
  let backHalfDays :=
    (days.filter fun (i : ℕ) =>
      (determineBookingPhase (i : ℚ)).phase = BookingPhase.BACK_HALF).length
  let frontHalfDays :=
    (days.filter fun (i : ℕ) =>
      (determineBookingPhase (i : ℚ)).phase = BookingPhase.FRONT_HALF).length
  let dayData : DayData :=
    { ourOcc := propertyOcc, ourPrice := currentPrice, marketOcc := marketForwardOcc,
      fairMarketPrice := marketAvgADR }
  let recommendations :=
    days.filterMap fun (i : ℕ) => auditDay (dateOf i) dayData (i : ℚ) fullAPS mode marketState
  { marketState := marketState, operatingMode := mode.name,
    bellCurve := { backHalfDays := backHalfDays, frontHalfDays := frontHalfDays,
                   transitionPoint := transitionPoint },
    recommendations := recommendations,
    counts :=
      { rateIncreases :=
          (recommendations.filter fun r => r.type = RecommendationType.RATE_INCREASE).length,
        priceDrops :=
          (recommendations.filter fun r => r.type = RecommendationType.PRICE_DROP).length,
        promotions :=
          (recommendations.filter fun r => r.type = RecommendationType.APPLY_PROMOTION).length,
        total := recommendations.length } }

/-! ## Promotion scanner (promotion-logic.ts, src/unnamed/part_003) -/

/-- `today` models `new Date().toISOString().slice(0, 10)`. -/
def scanAllPromotions (myOcc marketOcc currentPrice dynamicCentroid aps daysOut : ℚ)
    (marketState : MarketState) (avgBookingLength marketAvgBookingLength : Option ℚ)
    (today : String) : List Recommendation :=
  let velocityGap := marketOcc - myOcc
  let velocityRecs : List Recommendation :=
    if VELOCITY_GAP_THRESHOLD < velocityGap ∧ dynamicCentroid < currentPrice then
      [ { date := today, type := RecommendationType.APPLY_PROMOTION,
          currentPrice := currentPrice, suggestedPrice := dynamicCentroid * (17/20),
          phase := RecPhase.NA, marketState := marketState, operatingMode := "N/A" } ]
    else []
  let lastMinuteRecs : List Recommendation :=
    if daysOut ≤ LAST_MINUTE.MAX_DAYS_OUT ∧ myOcc < LAST_MINUTE.OCC_THRESHOLD then
      [ { date := today, type := RecommendationType.LAST_MINUTE_DEAL,
          currentPrice := currentPrice,
          suggestedPrice := dynamicCentroid * (1 - LAST_MINUTE.DISCOUNT_PERCENTAGE),
          phase := RecPhase.FRONT_HALF, marketState := marketState, operatingMode := "N/A" } ]
    else []
  let extendedStayRecs : List Recommendation :=
    match avgBookingLength, marketAvgBookingLength with
    | some avg, some mavg =>
      if avg < EXTENDED_STAY.PROPERTY_MAX_AVG_STAY ∧ EXTENDED_STAY.MARKET_MIN_AVG_STAY ≤ mavg then
        [ { date := today, type := RecommendationType.EXTENDED_STAY_INCENTIVE,
            currentPrice := currentPrice,
            suggestedPrice := currentPrice * (1 - EXTENDED_STAY.DISCOUNT_PERCENTAGE),
            phase := RecPhase.NA, marketState := marketState, operatingMode := "N/A" } ]
      else []
    | _, _ => []
  velocityRecs ++ lastMinuteRecs ++ extendedStayRecs

/-! ## Comparable filter selection (generateReport, src/revenue-engine/main.ts) -/

structure ComparableFilters where
  bedrooms : Option ℕ := none
  property_type : Option String := none
  min_sleeps : Option ℕ := none
  amenities : Option (List String) := none
  deriving DecidableEq, Repr

inductive CompTier
  | Strict
  | Standard
  | Broad
  | WholeMarket
  deriving DecidableEq, Repr

def MIN_COMPS : ℕ := 10

/-- The tiered comp fallback of `generateReport`: `dataPoints t` models the
comp count `fetchMarketDataSafe` returns for tier `t`'s filters (Strict = all
filters, Standard = bedrooms + sleeps, Broad = bedrooms only, Whole Market =
no filter); each tier's fetch completes before the next is decided. -/
def selectCompTier (compFilters : Option ComparableFilters) (dataPoints : CompTier → ℕ) :
    CompTier :=
  match compFilters with
  | some _ =>
    if dataPoints CompTier.Strict < MIN_COMPS then
      if dataPoints CompTier.Standard < MIN_COMPS then CompTier.Broad
      else CompTier.Standard
    else CompTier.Strict
  | none => CompTier.WholeMarket

/-! ## Helper lemmas -/

theorem transitionPoint_eq_27 :
    WEEKLY.FORWARD_BOOKING_WINDOW * WEEKLY.DECAY_WINDOW_PERCENTAGE = 27 := by
  norm_num [WEEKLY.FORWARD_BOOKING_WINDOW, WEEKLY.DECAY_WINDOW_PERCENTAGE]

theorem determineBookingPhase_front (d : ℚ) (hd : d ≤ 27) :
    (determineBookingPhase d).phase = BookingPhase.FRONT_HALF := by
  have hcond : ¬ (WEEKLY.FORWARD_BOOKING_WINDOW * WEEKLY.DECAY_WINDOW_PERCENTAGE < d) := by
    rw [transitionPoint_eq_27]
    exact not_lt.mpr hd
  simp [determineBookingPhase, hcond]

theorem selectBracket_b0 (d : ℚ) (h0 : 0 ≤ d) (h3 : d ≤ 3) :
    selectBracket d =
      { minDays := 0, maxDays := some 3, multiplier := 2, label := "0-3d (2x)" } := by
  simp [selectBracket, SLIDING_SCALE_BRACKETS, List.find?, bracketMatches, h0, h3]

theorem selectBracket_b1 (d : ℚ) (h4 : 4 ≤ d) (h7 : d ≤ 7) :
    selectBracket d =
      { minDays := 4, maxDays := some 7, multiplier := 3/2, label := "4-7d (1.5x)" } := by
  have h0 : (0 : ℚ) ≤ d := by linarith
  have n3 : ¬ (d ≤ (3 : ℚ)) := by linarith
  simp [selectBracket, SLIDING_SCALE_BRACKETS, List.find?, bracketMatches, h0, n3, h4, h7]

theorem selectBracket_b2 (d : ℚ) (h8 : 8 ≤ d) (h14 : d ≤ 14) :
    selectBracket d =
      { minDays := 8, maxDays := some 14, multiplier := 5/4, label := "8-14d (1.25x)" } := by
  have h0 : (0 : ℚ) ≤ d := by linarith
  have n3 : ¬ (d ≤ (3 : ℚ)) := by linarith
  have h4 : (4 : ℚ) ≤ d := by linarith
  have n7 : ¬ (d ≤ (7 : ℚ)) := by linarith
  simp [selectBracket, SLIDING_SCALE_BRACKETS, List.find?, bracketMatches, h0, n3, h4, n7,
    h8, h14]

theorem selectBracket_b3 (d : ℚ) (h15 : 15 ≤ d) (h30 : d ≤ 30) :
    selectBracket d =
      { minDays := 15, maxDays := some 30, multiplier := 1, label := "15-30d (1x)" } := by
  have h0 : (0 : ℚ) ≤ d := by linarith
  have n3 : ¬ (d ≤ (3 : ℚ)) := by linarith
  have h4 : (4 : ℚ) ≤ d := by linarith
  have n7 : ¬ (d ≤ (7 : ℚ)) := by linarith
  have h8 : (8 : ℚ) ≤ d := by linarith
  have n14 : ¬ (d ≤ (14 : ℚ)) := by linarith
  simp [selectBracket, SLIDING_SCALE_BRACKETS, List.find?, bracketMatches, h0, n3, h4, n7,
    h8, n14, h15, h30]

theorem selectBracket_b4 (d : ℚ) (h31 : 31 ≤ d) :
    selectBracket d =
      { minDays := 31, maxDays := none, multiplier := 3/4, label := "31+d (0.75x)" } := by
  have h0 : (0 : ℚ) ≤ d := by linarith
  have n3 : ¬ (d ≤ (3 : ℚ)) := by linarith
  have h4 : (4 : ℚ) ≤ d := by linarith
  have n7 : ¬ (d ≤ (7 : ℚ)) := by linarith
  have h8 : (8 : ℚ) ≤ d := by linarith
  have n14 : ¬ (d ≤ (14 : ℚ)) := by linarith
  have h15 : (15 : ℚ) ≤ d := by linarith
  have n30 : ¬ (d ≤ (30 : ℚ)) := by linarith
  simp [selectBracket, SLIDING_SCALE_BRACKETS, List.find?, bracketMatches, h0, n3, h4, n7,
    h8, n14, h15, n30, h31]

theorem selectBracket_gap (d : ℚ) (h3 : 3 < d) (h4 : d < 4) :
    selectBracket d =
      { minDays := 31, maxDays := none, multiplier := 3/4, label := "31+d (0.75x)" } := by
  have h0 : (0 : ℚ) ≤ d := by linarith
  have n3 : ¬ (d ≤ (3 : ℚ)) := by linarith
  have n4 : ¬ ((4 : ℚ) ≤ d) := by linarith
  have n8 : ¬ ((8 : ℚ) ≤ d) := by linarith
  have n15 : ¬ ((15 : ℚ) ≤ d) := by linarith
  have n31 : ¬ ((31 : ℚ) ≤ d) := by linarith
  simp [selectBracket, SLIDING_SCALE_BRACKETS, List.find?, bracketMatches, h0, n3, n4, n8,
    n15, n31, List.getLastD]

theorem auditDay_front_no_rateIncrease (dateStr : String) (day : DayData)
    (daysToArrival fullAPS : ℚ) (mode : OperatingMode) (marketState : MarketState)
    (hph : (determineBookingPhase daysToArrival).phase = BookingPhase.FRONT_HALF) :
    ∀ r, auditDay dateStr day daysToArrival fullAPS mode marketState = some r →
      r.type ≠ RecommendationType.RATE_INCREASE := by
  intro r hr
  have hc : ¬ ((determineBookingPhase daysToArrival).phase = BookingPhase.BACK_HALF) := by
    rw [hph]
    decide
  simp only [auditDay, if_neg hc] at hr
  by_cases hl : (checkFrontHalfLagging day.ourOcc day.marketOcc).1 = true
  · rw [if_pos hl] at hr
    by_cases ho : (checkMarketAlignment day.ourPrice day.fairMarketPrice fullAPS
        daysToArrival).isOverpriced = true
    · rw [if_pos ho] at hr
      cases hr
      simp
    · rw [if_neg ho] at hr
      cases hr
      simp
  · rw [if_neg hl] at hr
    cases hr

/-! ## Claim theorems -/

/-- C1: for every pair `(previousAPS, performanceIndex)`, `calculateNewAPS`
returns `clamp(previousAPS × 0.70 + performanceIndex × 0.30, 0.80, 1.60)`,
and the returned APS always lies in `[0.80, 1.60]`. -/
theorem c1_calculateNewAPS_clamped (previousAPS performanceIndex : ℚ) :
    RevenueEngine.calculateNewAPS previousAPS performanceIndex
      = clamp (previousAPS * (7/10) + performanceIndex * (3/10)) APS_MIN APS_MAX
    ∧ APS_MIN ≤ RevenueEngine.calculateNewAPS previousAPS performanceIndex
    ∧ RevenueEngine.calculateNewAPS previousAPS performanceIndex ≤ APS_MAX := by
  refine ⟨rfl, le_max_left _ _, ?_⟩
  exact max_le (by norm_num [APS_MIN, APS_MAX]) (min_le_right _ _)

/-- C2 (amended): for every multiplier triple and every target rent, the
correction computed from the triple's diagnosis satisfies
`newTargetRent = previousTargetRent × appliedMultiplier` exactly and
`appliedMultiplier ≤ 1.50`; but the lower bound is only `> 0.50`, not
`≥ 0.80`: the INCREASE branch applies no downward cap. -/
theorem c2_correction_product_and_bounds (m : PerformanceMultipliers)
    (currentTargetRent : ℚ) :
    (calculateCorrectionAdjustment currentTargetRent (diagnoseErrorForecasting m)).newTargetRent
      = (calculateCorrectionAdjustment currentTargetRent
          (diagnoseErrorForecasting m)).previousTargetRent
        * (calculateCorrectionAdjustment currentTargetRent
            (diagnoseErrorForecasting m)).appliedMultiplier
    ∧ (calculateCorrectionAdjustment currentTargetRent
        (diagnoseErrorForecasting m)).appliedMultiplier ≤ MONTHLY.MAX_UPWARD_CORRECTION
    ∧ 1/2 < (calculateCorrectionAdjustment currentTargetRent
        (diagnoseErrorForecasting m)).appliedMultiplier := by
  have happ : ∀ (r : ℚ) (d : Diagnosis),
      (calculateCorrectionAdjustment r d).appliedMultiplier =
        if d.type = DiagnosisType.CLASSIC_UNDERPRICING then
          min (1 + (d.correctionFactor - 1) / MONTHLY.CORRECTION_SMOOTHING_DIVISOR)
            MONTHLY.MAX_UPWARD_CORRECTION
        else if d.type = DiagnosisType.CLASSIC_OVERPRICING then
          max d.correctionFactor MONTHLY.MAX_DOWNWARD_CORRECTION
        else 1 := fun _ _ => rfl
  refine ⟨rfl, ?_, ?_⟩ <;> rw [happ] <;>
  · by_cases h1 : MONTHLY.UNDERPRICING_OCC_MULTIPLIER ≤ m.occupancy ∧
        m.revPAR ≤ MONTHLY.UNDERPRICING_REVPAR_MULTIPLIER
    · by_cases h2 : 0 < m.adr
      · have hpos : 0 < 1 / m.adr := by positivity
        have hdiv : MONTHLY.CORRECTION_SMOOTHING_DIVISOR = 2 := rfl
        simp only [diagnoseErrorForecasting, if_pos h1, if_pos h2, if_pos rfl, hdiv]
        first
        | exact min_le_right _ _
        | exact lt_min (by linarith) (by norm_num [MONTHLY.MAX_UPWARD_CORRECTION])
      · simp only [diagnoseErrorForecasting, if_pos h1, if_neg h2, if_pos rfl]
        first
        | exact min_le_right _ _
        | exact lt_min (by norm_num [MONTHLY.CORRECTION_SMOOTHING_DIVISOR])
            (by norm_num [MONTHLY.MAX_UPWARD_CORRECTION])
    · by_cases h3 : m.occupancy ≤ MONTHLY.OVERPRICING_OCC_MULTIPLIER ∧
          m.revPAR ≤ MONTHLY.OVERPRICING_REVPAR_MULTIPLIER
      · simp only [diagnoseErrorForecasting, if_neg h1, if_pos h3]
        rw [if_neg (show ¬ (DiagnosisType.CLASSIC_OVERPRICING
            = DiagnosisType.CLASSIC_UNDERPRICING) by decide)]
        norm_num [MONTHLY.OVERPRICING_CORRECTION_FACTOR, MONTHLY.MAX_UPWARD_CORRECTION,
          MONTHLY.MAX_DOWNWARD_CORRECTION, max_def]
      · simp only [diagnoseErrorForecasting, if_neg h1, if_neg h3]
        rw [if_neg (show ¬ (DiagnosisType.ACCEPTABLE_PERFORMANCE
            = DiagnosisType.CLASSIC_UNDERPRICING) by decide),
          if_neg (show ¬ (DiagnosisType.ACCEPTABLE_PERFORMANCE
            = DiagnosisType.CLASSIC_OVERPRICING) by decide)]
        norm_num [MONTHLY.MAX_UPWARD_CORRECTION]

/-- C2 counterexample: the multiplier triple (1.5, 0.8, 2) diagnoses as
classic underpricing with correction factor 1/2, and the applied multiplier
is 0.75, strictly below the claimed floor of 0.80. -/
theorem c2_lower_bound_counterexample :
    (calculateCorrectionAdjustment 100
        (diagnoseErrorForecasting
          { occupancy := 3/2, revPAR := 4/5, adr := 2 })).appliedMultiplier = 3/4
    ∧ (calculateCorrectionAdjustment 100
        (diagnoseErrorForecasting
          { occupancy := 3/2, revPAR := 4/5, adr := 2 })).appliedMultiplier
      < MONTHLY.MAX_DOWNWARD_CORRECTION := by
  have h : (calculateCorrectionAdjustment 100
      (diagnoseErrorForecasting
        { occupancy := 3/2, revPAR := 4/5, adr := 2 })).appliedMultiplier = 3/4 := by
    norm_num [calculateCorrectionAdjustment, diagnoseErrorForecasting,
      MONTHLY.UNDERPRICING_OCC_MULTIPLIER, MONTHLY.UNDERPRICING_REVPAR_MULTIPLIER,
      MONTHLY.CORRECTION_SMOOTHING_DIVISOR, MONTHLY.MAX_UPWARD_CORRECTION, min_def]
  exact ⟨h, by rw [h]; norm_num [MONTHLY.MAX_DOWNWARD_CORRECTION]⟩

/-- C3 (amended): when filters are present, tiers are tried in the fixed order
Strict, Standard, Broad, stopping at the first tier whose sample count reaches
`MIN_COMPS = 10`; if the Broad tier still returns fewer than 10 comps,
selection stays at Broad — it never relaxes to Whole Market, which is used
only when no filters are present. -/
theorem c3_selectCompTier_spec (f : ComparableFilters) (dataPoints : CompTier → ℕ) :
    (selectCompTier (some f) dataPoints = CompTier.Strict
      ↔ MIN_COMPS ≤ dataPoints CompTier.Strict)
    ∧ (selectCompTier (some f) dataPoints = CompTier.Standard
      ↔ dataPoints CompTier.Strict < MIN_COMPS ∧ MIN_COMPS ≤ dataPoints CompTier.Standard)
    ∧ (selectCompTier (some f) dataPoints = CompTier.Broad
      ↔ dataPoints CompTier.Strict < MIN_COMPS ∧ dataPoints CompTier.Standard < MIN_COMPS)
    ∧ selectCompTier (some f) dataPoints ≠ CompTier.WholeMarket
    ∧ selectCompTier none dataPoints = CompTier.WholeMarket := by
  by_cases h1 : dataPoints CompTier.Strict < MIN_COMPS <;>
    by_cases h2 : dataPoints CompTier.Standard < MIN_COMPS <;>
      simp [selectCompTier, h1, h2] <;> omega

/-- C3 counterexample: with filters present and every tier returning 0 comps,
selection ends at Broad, not Whole Market — the claimed extra relaxation step
does not exist. -/
theorem c3_broad_floor_counterexample :
    selectCompTier
        (some { bedrooms := some 3, property_type := none, min_sleeps := none, amenities := none })
        (fun _ => 0) = CompTier.Broad
    ∧ selectCompTier
        (some { bedrooms := some 3, property_type := none, min_sleeps := none, amenities := none })
        (fun _ => 0) ≠ CompTier.WholeMarket := by
  constructor <;> decide

/-- C4 (amended): `determineBookingPhase` classifies day 27 as FRONT_HALF
(27 is not `> 27`), day 28 as BACK_HALF, and every day in 0..26 as
FRONT_HALF. -/
theorem c4_bookingPhase_boundaries :
    (determineBookingPhase 27).phase = BookingPhase.FRONT_HALF
    ∧ (determineBookingPhase 28).phase = BookingPhase.BACK_HALF
    ∧ ∀ n : ℕ, n ≤ 26 → (determineBookingPhase (n : ℚ)).phase = BookingPhase.FRONT_HALF := by
  refine ⟨?_, ?_, fun n hn => ?_⟩
  · norm_num [determineBookingPhase, WEEKLY.FORWARD_BOOKING_WINDOW,
      WEEKLY.DECAY_WINDOW_PERCENTAGE]
  · norm_num [determineBookingPhase, WEEKLY.FORWARD_BOOKING_WINDOW,
      WEEKLY.DECAY_WINDOW_PERCENTAGE]
  have h : (n : ℚ) ≤ 26 := by exact_mod_cast hn
  have hcond : ¬ (WEEKLY.FORWARD_BOOKING_WINDOW * WEEKLY.DECAY_WINDOW_PERCENTAGE < (n : ℚ)) := by
    rw [show WEEKLY.FORWARD_BOOKING_WINDOW * WEEKLY.DECAY_WINDOW_PERCENTAGE = (27 : ℚ) by norm_num
      [WEEKLY.FORWARD_BOOKING_WINDOW, WEEKLY.DECAY_WINDOW_PERCENTAGE]]
    linarith
  simp [determineBookingPhase, hcond]

/-- C4 counterexample: at `daysToArrival = 27` exactly the phase is
FRONT_HALF, not the BACK_HALF the claim states. -/
theorem c4_day27_counterexample :
    (determineBookingPhase 27).phase ≠ BookingPhase.BACK_HALF := by
  have h : (determineBookingPhase 27).phase = BookingPhase.FRONT_HALF := by
    norm_num [determineBookingPhase, WEEKLY.FORWARD_BOOKING_WINDOW,
      WEEKLY.DECAY_WINDOW_PERCENTAGE]
  rw [h]
  decide

/-- C5: for every multiplier triple, `diagnoseErrorForecasting` returns
exactly one of the three diagnosis types — each characterized by its branch
condition, so the three cases are total and mutually exclusive — and the
boundary `occupancy = 1.5` with `revPAR ≤ 0.8` classifies as
CLASSIC_UNDERPRICING because the occupancy comparison is inclusive. -/
theorem c5_diagnose_total_exclusive (m : PerformanceMultipliers) :
    ((diagnoseErrorForecasting m).type = DiagnosisType.CLASSIC_UNDERPRICING
      ↔ MONTHLY.UNDERPRICING_OCC_MULTIPLIER ≤ m.occupancy
        ∧ m.revPAR ≤ MONTHLY.UNDERPRICING_REVPAR_MULTIPLIER)
    ∧ ((diagnoseErrorForecasting m).type = DiagnosisType.CLASSIC_OVERPRICING
      ↔ ¬ (MONTHLY.UNDERPRICING_OCC_MULTIPLIER ≤ m.occupancy
          ∧ m.revPAR ≤ MONTHLY.UNDERPRICING_REVPAR_MULTIPLIER)
        ∧ (m.occupancy ≤ MONTHLY.OVERPRICING_OCC_MULTIPLIER
          ∧ m.revPAR ≤ MONTHLY.OVERPRICING_REVPAR_MULTIPLIER))
    ∧ ((diagnoseErrorForecasting m).type = DiagnosisType.ACCEPTABLE_PERFORMANCE
      ↔ ¬ (MONTHLY.UNDERPRICING_OCC_MULTIPLIER ≤ m.occupancy
          ∧ m.revPAR ≤ MONTHLY.UNDERPRICING_REVPAR_MULTIPLIER)
        ∧ ¬ (m.occupancy ≤ MONTHLY.OVERPRICING_OCC_MULTIPLIER
          ∧ m.revPAR ≤ MONTHLY.OVERPRICING_REVPAR_MULTIPLIER))
    ∧ (m.occupancy = 3/2 → m.revPAR ≤ 4/5 →
        (diagnoseErrorForecasting m).type = DiagnosisType.CLASSIC_UNDERPRICING) := by
  by_cases h1 : MONTHLY.UNDERPRICING_OCC_MULTIPLIER ≤ m.occupancy ∧
      m.revPAR ≤ MONTHLY.UNDERPRICING_REVPAR_MULTIPLIER
  · have ht : (diagnoseErrorForecasting m).type = DiagnosisType.CLASSIC_UNDERPRICING := by
      simp only [diagnoseErrorForecasting, if_pos h1]
    rw [ht]
    exact ⟨iff_of_true rfl h1, iff_of_false (by decide) (fun hc => hc.1 h1),
      iff_of_false (by decide) (fun hc => hc.1 h1), fun _ _ => rfl⟩
  · by_cases h2 : m.occupancy ≤ MONTHLY.OVERPRICING_OCC_MULTIPLIER ∧
        m.revPAR ≤ MONTHLY.OVERPRICING_REVPAR_MULTIPLIER
    · have ht : (diagnoseErrorForecasting m).type = DiagnosisType.CLASSIC_OVERPRICING := by
        simp only [diagnoseErrorForecasting, if_neg h1, if_pos h2]
      rw [ht]
      exact ⟨iff_of_false (by decide) h1, iff_of_true rfl ⟨h1, h2⟩,
        iff_of_false (by decide) (fun hc => hc.2 h2),
        fun hocc hrev => absurd ⟨hocc.ge, hrev⟩ h1⟩
    · have ht : (diagnoseErrorForecasting m).type = DiagnosisType.ACCEPTABLE_PERFORMANCE := by
        simp only [diagnoseErrorForecasting, if_neg h1, if_neg h2]
      rw [ht]
      exact ⟨iff_of_false (by decide) h1, iff_of_false (by decide) (fun hc => h2 hc.2),
        iff_of_true rfl ⟨h1, h2⟩, fun hocc hrev => absurd ⟨hocc.ge, hrev⟩ h1⟩

/-- C6: `calculateSlidingScaleDiscount` picks the bracket by first inclusive
day-range match in ascending order — day 3 gets multiplier 2.0, day 4 gets
1.5, and the five bracket ranges carry multipliers 2.0 / 1.5 / 1.25 / 1.0 /
0.75 — and returns `finalDiscount = min(baseDiscount × multiplier,
maxDiscount)` with `cappedByMax` set exactly when the cap binds. -/
theorem c6_slidingScale_spec (baseDiscount maxDiscount : ℚ) :
    (calculateSlidingScaleDiscount baseDiscount maxDiscount 3).multiplier = 2
    ∧ (calculateSlidingScaleDiscount baseDiscount maxDiscount 4).multiplier = 3/2
    ∧ (∀ d : ℚ,
        (calculateSlidingScaleDiscount baseDiscount maxDiscount d).finalDiscount
          = min (baseDiscount
              * (calculateSlidingScaleDiscount baseDiscount maxDiscount d).multiplier)
            maxDiscount
        ∧ ((calculateSlidingScaleDiscount baseDiscount maxDiscount d).cappedByMax = true
          ↔ maxDiscount < baseDiscount
              * (calculateSlidingScaleDiscount baseDiscount maxDiscount d).multiplier))
    ∧ (∀ d : ℚ,
        (0 ≤ d ∧ d ≤ 3 →
          (calculateSlidingScaleDiscount baseDiscount maxDiscount d).multiplier = 2)
        ∧ (4 ≤ d ∧ d ≤ 7 →
          (calculateSlidingScaleDiscount baseDiscount maxDiscount d).multiplier = 3/2)
        ∧ (8 ≤ d ∧ d ≤ 14 →
          (calculateSlidingScaleDiscount baseDiscount maxDiscount d).multiplier = 5/4)
        ∧ (15 ≤ d ∧ d ≤ 30 →
          (calculateSlidingScaleDiscount baseDiscount maxDiscount d).multiplier = 1)
        ∧ (31 ≤ d →
          (calculateSlidingScaleDiscount baseDiscount maxDiscount d).multiplier = 3/4)) := by
  have hm : ∀ d : ℚ, (calculateSlidingScaleDiscount baseDiscount maxDiscount d).multiplier
      = (selectBracket d).multiplier := fun _ => rfl
  refine ⟨?_, ?_, fun d => ⟨rfl, by simp [calculateSlidingScaleDiscount]⟩, fun d => ?_⟩
  · rw [hm, selectBracket_b0 3 (by norm_num) (by norm_num)]
  · rw [hm, selectBracket_b1 4 (by norm_num) (by norm_num)]
  · refine ⟨fun h => ?_, fun h => ?_, fun h => ?_, fun h => ?_, fun h => ?_⟩
    · rw [hm, selectBracket_b0 d h.1 h.2]
    · rw [hm, selectBracket_b1 d h.1 h.2]
    · rw [hm, selectBracket_b2 d h.1 h.2]
    · rw [hm, selectBracket_b3 d h.1 h.2]
    · rw [hm, selectBracket_b4 d h]

/-- C7: the three promotion rules of `scanAllPromotions` are evaluated
independently, so between zero and three recommendations can result from one
call (three at a concrete input where all rules fire); the Last Minute rule
fires exactly when `daysOut ≤ 7` and `ourOcc < 0.50`, and then suggests 20%
off the dynamic centroid, regardless of the other rules. -/
theorem c7_scanAllPromotions_spec (myOcc marketOcc currentPrice dynamicCentroid aps
    daysOut : ℚ) (marketState : MarketState)
    (avgBookingLength marketAvgBookingLength : Option ℚ) (today : String) :
    (scanAllPromotions myOcc marketOcc currentPrice dynamicCentroid aps daysOut
        marketState avgBookingLength marketAvgBookingLength today).length ≤ 3
    ∧ ((∃ r ∈ scanAllPromotions myOcc marketOcc currentPrice dynamicCentroid aps daysOut
          marketState avgBookingLength marketAvgBookingLength today,
        r.type = RecommendationType.LAST_MINUTE_DEAL)
      ↔ daysOut ≤ LAST_MINUTE.MAX_DAYS_OUT ∧ myOcc < LAST_MINUTE.OCC_THRESHOLD)
    ∧ (∀ r ∈ scanAllPromotions myOcc marketOcc currentPrice dynamicCentroid aps daysOut
          marketState avgBookingLength marketAvgBookingLength today,
        r.type = RecommendationType.LAST_MINUTE_DEAL →
          r.suggestedPrice = dynamicCentroid * (1 - LAST_MINUTE.DISCOUNT_PERCENTAGE))
    ∧ (scanAllPromotions (1/5) (1/2) 300 200 1 3 MarketState.NEUTRAL
        (some 2) (some 5) today).length = 3 := by
  have hconc : (scanAllPromotions (1/5) (1/2) 300 200 1 3 MarketState.NEUTRAL
      (some 2) (some 5) today).length = 3 := by
    norm_num [scanAllPromotions, VELOCITY_GAP_THRESHOLD, LAST_MINUTE.MAX_DAYS_OUT,
      LAST_MINUTE.OCC_THRESHOLD, EXTENDED_STAY.PROPERTY_MAX_AVG_STAY,
      EXTENDED_STAY.MARKET_MIN_AVG_STAY]
  refine ⟨?_, ?_, ?_, hconc⟩ <;>
  · by_cases hv : VELOCITY_GAP_THRESHOLD < marketOcc - myOcc ∧ dynamicCentroid < currentPrice <;>
      by_cases hl : daysOut ≤ LAST_MINUTE.MAX_DAYS_OUT ∧ myOcc < LAST_MINUTE.OCC_THRESHOLD <;>
        rcases avgBookingLength with _ | a <;> rcases marketAvgBookingLength with _ | b <;>
          first
          | · by_cases he : a < EXTENDED_STAY.PROPERTY_MAX_AVG_STAY ∧
                EXTENDED_STAY.MARKET_MIN_AVG_STAY ≤ b <;>
              simp [scanAllPromotions, hv, hl, he, reduceCtorEq]
          | simp [scanAllPromotions, hv, hl, reduceCtorEq]

/-- C8: the weekly review audits only day offsets 0..13 while the phase
transition sits at 27, so every audited day is FRONT_HALF: the result always
has `backHalfDays = 0`, `counts.rateIncreases = 0`, and no RATE_INCREASE
recommendation — the back-half Early Demand rule is unreachable from this
entry point. -/
theorem c8_weekly_frontHalf_only (dateOf : ℕ → String)
    (propertyOcc currentPrice fullAPS marketForwardOcc marketHistoricalOcc marketAvgADR : ℚ) :
    (runWeeklyBellCurveReview dateOf propertyOcc currentPrice fullAPS marketForwardOcc
        marketHistoricalOcc marketAvgADR).bellCurve.backHalfDays = 0
    ∧ (runWeeklyBellCurveReview dateOf propertyOcc currentPrice fullAPS marketForwardOcc
        marketHistoricalOcc marketAvgADR).counts.rateIncreases = 0
    ∧ ∀ r ∈ (runWeeklyBellCurveReview dateOf propertyOcc currentPrice fullAPS marketForwardOcc
        marketHistoricalOcc marketAvgADR).recommendations,
        r.type ≠ RecommendationType.RATE_INCREASE := by
  have hfront : ∀ i ∈ List.range WEEKLY.AUDIT_LOOKAHEAD_DAYS,
      (determineBookingPhase (i : ℚ)).phase = BookingPhase.FRONT_HALF := by
    intro i hi
    rw [List.mem_range] at hi
    refine determineBookingPhase_front _ ?_
    have : (i : ℚ) ≤ 13 := by
      have : i ≤ 13 := by
        simpa [WEEKLY.AUDIT_LOOKAHEAD_DAYS] using Nat.lt_succ_iff.mp (by
          simpa [WEEKLY.AUDIT_LOOKAHEAD_DAYS] using hi)
      exact_mod_cast this
    linarith
  have hmem : ∀ r ∈ (runWeeklyBellCurveReview dateOf propertyOcc currentPrice fullAPS
      marketForwardOcc marketHistoricalOcc marketAvgADR).recommendations,
      r.type ≠ RecommendationType.RATE_INCREASE := by
    intro r hr
    have hr' : r ∈ (List.range WEEKLY.AUDIT_LOOKAHEAD_DAYS).filterMap
        (fun i => auditDay (dateOf i)
          { ourOcc := propertyOcc, ourPrice := currentPrice, marketOcc := marketForwardOcc,
            fairMarketPrice := marketAvgADR } (i : ℚ) fullAPS
          (getOperatingMode (determineMarketState marketForwardOcc marketHistoricalOcc))
          (determineMarketState marketForwardOcc marketHistoricalOcc)) := hr
    rw [List.mem_filterMap] at hr'
    obtain ⟨i, hi, hf⟩ := hr'
    exact auditDay_front_no_rateIncrease _ _ _ _ _ _ (hfront i hi) r hf
  refine ⟨?_, ?_, hmem⟩
  · show ((List.range WEEKLY.AUDIT_LOOKAHEAD_DAYS).filter
        (fun (i : ℕ) =>
          decide ((determineBookingPhase (i : ℚ)).phase = BookingPhase.BACK_HALF))).length = 0
    rw [List.length_eq_zero, List.filter_eq_nil_iff]
    intro i hi
    simp [hfront i hi]
  · show (((List.range WEEKLY.AUDIT_LOOKAHEAD_DAYS).filterMap
        (fun (i : ℕ) => auditDay (dateOf i)
          { ourOcc := propertyOcc, ourPrice := currentPrice, marketOcc := marketForwardOcc,
            fairMarketPrice := marketAvgADR } (i : ℚ) fullAPS
          (getOperatingMode (determineMarketState marketForwardOcc marketHistoricalOcc))
          (determineMarketState marketForwardOcc marketHistoricalOcc))).filter
        (fun r => decide (r.type = RecommendationType.RATE_INCREASE))).length = 0
    rw [List.length_eq_zero, List.filter_eq_nil_iff]
    intro r hr
    simpa using hmem r hr

/-- C9: in `determineMarketState` the HOT test runs before the COLD test, so
whenever both conditions hold (for instance occupancy at or above 0.75 with
pace ratio at or below 0.90) the result is HOT, never COLD; and a
non-positive historical pace defaults the pace ratio to 1.0, so the
classification then depends only on the forward occupancy. -/
theorem c9_marketState_hot_priority (forwardOccupancy historicalOccupancyPace : ℚ) :
    ((MARKET_STATE.HOT_OCCUPANCY_THRESHOLD ≤ forwardOccupancy ∨
        MARKET_STATE.HOT_PACE_THRESHOLD ≤
          (if 0 < historicalOccupancyPace
           then forwardOccupancy / historicalOccupancyPace else 1)) →
      determineMarketState forwardOccupancy historicalOccupancyPace = MarketState.HOT)
    ∧ ((MARKET_STATE.HOT_OCCUPANCY_THRESHOLD ≤ forwardOccupancy ∧
        (if 0 < historicalOccupancyPace
         then forwardOccupancy / historicalOccupancyPace else 1)
          ≤ MARKET_STATE.COLD_PACE_THRESHOLD) →
      determineMarketState forwardOccupancy historicalOccupancyPace = MarketState.HOT)
    ∧ (historicalOccupancyPace ≤ 0 →
      determineMarketState forwardOccupancy historicalOccupancyPace =
        (if MARKET_STATE.HOT_OCCUPANCY_THRESHOLD ≤ forwardOccupancy then MarketState.HOT
         else if forwardOccupancy ≤ MARKET_STATE.COLD_OCCUPANCY_THRESHOLD then MarketState.COLD
         else MarketState.NEUTRAL)) := by
  have hhot : ∀ h : MARKET_STATE.HOT_OCCUPANCY_THRESHOLD ≤ forwardOccupancy ∨
      MARKET_STATE.HOT_PACE_THRESHOLD ≤
        (if 0 < historicalOccupancyPace
         then forwardOccupancy / historicalOccupancyPace else 1),
      determineMarketState forwardOccupancy historicalOccupancyPace = MarketState.HOT := by
    intro h
    simp only [determineMarketState, if_pos h]
  refine ⟨hhot, fun h => hhot (Or.inl h.1), fun hle => ?_⟩
  have hnp : ¬ (0 < historicalOccupancyPace) := not_lt.mpr hle
  have hpace : ¬ (MARKET_STATE.HOT_PACE_THRESHOLD ≤ (1 : ℚ)) := by
    norm_num [MARKET_STATE.HOT_PACE_THRESHOLD]
  have hpace2 : ¬ ((1 : ℚ) ≤ MARKET_STATE.COLD_PACE_THRESHOLD) := by
    norm_num [MARKET_STATE.COLD_PACE_THRESHOLD]
  by_cases hf1 : MARKET_STATE.HOT_OCCUPANCY_THRESHOLD ≤ forwardOccupancy
  · rw [hhot (Or.inl hf1), if_pos hf1]
  · have hc1 : ¬ (MARKET_STATE.HOT_OCCUPANCY_THRESHOLD ≤ forwardOccupancy ∨
        MARKET_STATE.HOT_PACE_THRESHOLD ≤
          (if 0 < historicalOccupancyPace
           then forwardOccupancy / historicalOccupancyPace else 1)) := by
      rw [if_neg hnp]
      exact fun hc => hc.elim hf1 hpace
    by_cases hf2 : forwardOccupancy ≤ MARKET_STATE.COLD_OCCUPANCY_THRESHOLD
    · have hc2 : forwardOccupancy ≤ MARKET_STATE.COLD_OCCUPANCY_THRESHOLD ∨
          (if 0 < historicalOccupancyPace
           then forwardOccupancy / historicalOccupancyPace else 1)
            ≤ MARKET_STATE.COLD_PACE_THRESHOLD := Or.inl hf2
      simp only [determineMarketState, if_neg hnp] at hc1 ⊢
      rw [if_neg hc1, if_pos (by rw [if_neg hnp] at hc2; exact hc2), if_neg hf1, if_pos hf2]
    · have hc2 : ¬ (forwardOccupancy ≤ MARKET_STATE.COLD_OCCUPANCY_THRESHOLD ∨
          (if 0 < historicalOccupancyPace
           then forwardOccupancy / historicalOccupancyPace else 1)
            ≤ MARKET_STATE.COLD_PACE_THRESHOLD) := by
        rw [if_neg hnp]
        exact fun hc => hc.elim hf2 hpace2
      simp only [determineMarketState, if_neg hnp] at hc1 hc2 ⊢
      rw [if_neg hc1, if_neg hc2, if_neg hf1, if_neg hf2]

/-- C10: a non-integer `daysToArrival` strictly between 3 and 4 matches no
bracket's inclusive day range, so `calculateSlidingScaleDiscount` falls back
to the last bracket (31+ days, multiplier 0.75) rather than either adjacent
bracket; in particular day 3.5 gets multiplier 0.75. -/
theorem c10_gap_falls_to_last_bracket (baseDiscount maxDiscount : ℚ) :
    (∀ d : ℚ, 3 < d → d < 4 →
      (calculateSlidingScaleDiscount baseDiscount maxDiscount d).multiplier = 3/4
      ∧ (calculateSlidingScaleDiscount baseDiscount maxDiscount d).bracketLabel
        = "31+d (0.75x)")
    ∧ (calculateSlidingScaleDiscount baseDiscount maxDiscount (7/2)).multiplier = 3/4 := by
  have hm : ∀ d : ℚ, (calculateSlidingScaleDiscount baseDiscount maxDiscount d).multiplier
      = (selectBracket d).multiplier := fun _ => rfl
  have hlab : ∀ d : ℚ, (calculateSlidingScaleDiscount baseDiscount maxDiscount d).bracketLabel
      = (selectBracket d).label := fun _ => rfl
  refine ⟨fun d h3 h4 => ⟨?_, ?_⟩, ?_⟩
  · rw [hm, selectBracket_gap d h3 h4]
  · rw [hlab, selectBracket_gap d h3 h4]
  · rw [hm, selectBracket_gap (7/2) (by norm_num) (by norm_num)]

end RevenueSpec
